import Mathlib

/-!
Verification of the folio212 core: the portfolio aggregation engine
(`internal/domain/portfolio/service.go`), the Trading 212 HTTP client retry
policy (`internal/infrastructure/trading212/client.go`, `errors.go`) and the
tiered credential resolver (`internal/infrastructure/secrets/secrets.go`).

Modelling conventions:
* Go `float64` amounts are modelled as exact rationals (`ℚ`).
* Go `time.Duration` (int64 nanoseconds) is modelled as `ℤ` nanoseconds.
* Go's nilable `*float64` is `Option ℚ`; a zero `time.Time` is `none`.
* The warning strings built with `fmt.Sprintf` in `reconcile` are modelled
  structurally: each constructor of `Warning` carries the data interpolated
  into the corresponding format string.
-/

namespace Folio212

/-! ## Data model (internal/infrastructure/trading212/types.go) -/

structure Cash where
  availableToTrade : ℚ
  inPies : ℚ
  reservedForOrders : ℚ
deriving Repr, DecidableEq

structure Investments where
  currentValue : ℚ
  realizedProfitLoss : ℚ
  totalCost : ℚ
  unrealizedProfitLoss : ℚ
deriving Repr, DecidableEq

structure AccountSummary where
  cash : Cash
  currency : String
  id : ℤ
  investments : Investments
  totalValue : ℚ
deriving Repr, DecidableEq

structure Instrument where
  currency : String
  isin : String
  name : String
  ticker : String
deriving Repr, DecidableEq

structure PositionWalletImpact where
  currency : String
  currentValue : ℚ
  fxImpact : Option ℚ
  totalCost : ℚ
  unrealizedProfitLoss : ℚ
deriving Repr, DecidableEq

structure Position where
  averagePricePaid : ℚ
  /-- `createdAt` already rendered in RFC3339; `none` models Go's zero `time.Time`. -/
  createdAt : Option String
  currentPrice : ℚ
  instrument : Instrument
  quantity : ℚ
  quantityAvailableForTrading : ℚ
  quantityInPies : ℚ
  walletImpact : PositionWalletImpact
deriving Repr, DecidableEq

/-- `Position.Invested`: total cost basis in the account currency. -/
def Position.Invested (p : Position) : ℚ := p.walletImpact.totalCost

/-- `Position.CurrentValue`: current market value in the account currency. -/
def Position.CurrentValue (p : Position) : ℚ := p.walletImpact.currentValue

/-! ## Pure helpers (internal/domain/portfolio/service.go) -/

def SumPositionsValue (positions : List Position) : ℚ :=
  positions.foldl (fun sum p => sum + p.CurrentValue) 0

def SumPositionsCost (positions : List Position) : ℚ :=
  positions.foldl (fun sum p => sum + p.Invested) 0

def SumPositionsPnL (positions : List Position) : ℚ :=
  positions.foldl (fun sum p => sum + p.walletImpact.unrealizedProfitLoss) 0

/-- The Go loop keeps accumulating non-nil impacts and flips `ok` to `false`
on the first nil `fxImpact` (`continue`, not early return). -/
def SumPositionsFXImpact (positions : List Position) : ℚ × Bool :=
  positions.foldl
    (fun acc p =>
      match p.walletImpact.fxImpact with
      | none => (acc.1, false)
      | some v => (acc.1 + v, acc.2))
    (0, true)

def Abs (x : ℚ) : ℚ := if x < 0 then -x else x

/-- Go `math.Round`: round half away from zero, yielding an integer. -/
def mathRound (x : ℚ) : ℤ := if x < 0 then -⌊-x + 1/2⌋ else ⌊x + 1/2⌋

def Round (x : ℚ) (places : ℕ) : ℚ := (mathRound (x * 10 ^ places) : ℚ) / 10 ^ places

def PctToBps (pct : ℚ) : ℤ := mathRound (pct * 100)

def ChooseFXPair (explicit instrumentCurrency accountCurrency : String) : String :=
  if explicit ≠ "" then explicit
  else if instrumentCurrency = "" ∨ accountCurrency = "" ∨ instrumentCurrency = accountCurrency
  then "n/a"
  else instrumentCurrency ++ "/" ++ accountCurrency

def CalculateAllocationPercentage (positionValue totalHoldingsValue : ℚ) : ℚ :=
  if totalHoldingsValue ≤ 0 then 0 else positionValue / totalHoldingsValue * 100

def CalculateHoldingsReturn (holdingsPnL holdingsCost : ℚ) : ℚ :=
  if holdingsCost ≤ 0 then 0 else holdingsPnL / holdingsCost * 100

/-! ## Output data model (internal/domain/portfolio/types.go) -/

structure PeriodRange where
  fromDate : Option String
  toDate : Option String
deriving Repr, DecidableEq

structure Report where
  reportDate : String
  generatedAt : String
  period : PeriodRange
deriving Repr, DecidableEq

structure DerivedMetrics where
  holdingsValue : ℚ
  pieCash : ℚ
  allocated : ℚ
  freeCash : ℚ
  accountTotal : ℚ
  holdingsCost : ℚ
  holdingsPnL : ℚ
  holdingsFXImpact : Option ℚ
  holdingsPnLExclFX : Option ℚ
  holdingsReturnPct : ℚ
  holdingsReturnBps : ℤ
  twrPctEst : ℚ
  twrBpsEst : ℤ
  twrMethod : String
  twrDescription : String
deriving Repr, DecidableEq

structure APISnapshot where
  apiInvestmentsValue : ℚ
  apiCashInPies : ℚ
  apiCashAvailable : ℚ
  apiCashReserved : ℚ
  apiRealizedPnL : ℚ
  apiTotalCost : ℚ
  apiTotalValue : ℚ
deriving Repr, DecidableEq

/-- The two warning strings `reconcile` can produce, modelled structurally:
`accountTotal diff currency` stands for the string
`"account total does not reconcile (diff: %.2f %s)"` and
`investmentsAllocated diff currency` for
`"investments allocated does not reconcile (diff: %.2f %s)"`. -/
inductive Warning where
  | accountTotal (diff : ℚ) (currency : String)
  | investmentsAllocated (diff : ℚ) (currency : String)
deriving Repr, DecidableEq

structure Reconciliation where
  allocatedDiff : ℚ
  accountTotalDiff : ℚ
  warnings : List Warning
deriving Repr, DecidableEq

structure Summary where
  currency : String
  derived : DerivedMetrics
  snapshot : APISnapshot
  reconciliation : Reconciliation
deriving Repr, DecidableEq

structure AllocationRow where
  ticker : String
  marketValue : ℚ
  holdingsPct : ℚ
  holdingsBps : ℤ
deriving Repr, DecidableEq

structure HoldingRow where
  ticker : String
  name : String
  isin : String
  openedAt : String
  qty : ℚ
  tradableQty : ℚ
  qtyInPies : ℚ
  instrumentCurrency : String
  avgPricePaid : ℚ
  currentPrice : ℚ
  accountCurrency : String
  invested : ℚ
  marketValue : ℚ
  unrealizedPnL : ℚ
  fxImpact : Option ℚ
  fxPair : String
  holdingsPct : ℚ
  holdingsBps : ℤ
deriving Repr, DecidableEq

structure RawData where
  accountSummary : AccountSummary
  positions : List Position
deriving Repr, DecidableEq

structure Output where
  schemaVersion : ℕ
  report : Report
  summary : Summary
  allocation : List AllocationRow
  holdings : List HoldingRow
  raw : Option RawData
deriving Repr, DecidableEq

def SchemaVersion : ℕ := 1

/-! ## Aggregation (GetPortfolio and reconcile, service.go) -/

def reconcile (summary : AccountSummary) (pieCash freeCash allocated : ℚ) :
    Reconciliation :=
  let accountTotal := summary.totalValue
  let warnings :=
    (if Abs (accountTotal - (freeCash + allocated)) > 1/100 then
      [Warning.accountTotal (accountTotal - (freeCash + allocated)) summary.currency]
    else []) ++
    (if Abs (summary.investments.currentValue - allocated) > 1/100 then
      [Warning.investmentsAllocated (summary.investments.currentValue - allocated)
        summary.currency]
    else [])
  { allocatedDiff := Round (summary.investments.currentValue - allocated) 2
    accountTotalDiff := Round (summary.totalValue - (freeCash + allocated)) 2
    warnings := warnings }

/-- The inline `fxPair` computation in the `GetPortfolio` loop
(service.go lines 62-65): the pair string when both currencies are known and
differ, the empty string otherwise. -/
def mkFXPair (summary : AccountSummary) (p : Position) : String :=
  if p.instrument.currency ≠ "" ∧ summary.currency ≠ "" ∧
      p.instrument.currency ≠ summary.currency
  then p.instrument.currency ++ "/" ++ summary.currency
  else ""

def mkAllocationRow (holdingsValue : ℚ) (p : Position) : AllocationRow :=
  let pct := CalculateAllocationPercentage p.CurrentValue holdingsValue
  { ticker := p.instrument.ticker
    marketValue := p.CurrentValue
    holdingsPct := Round pct 2
    holdingsBps := PctToBps pct }

def mkHoldingRow (summary : AccountSummary) (holdingsValue : ℚ) (p : Position) :
    HoldingRow :=
  let pct := CalculateAllocationPercentage p.CurrentValue holdingsValue
  { ticker := p.instrument.ticker
    name := p.instrument.name
    isin := p.instrument.isin
    openedAt := p.createdAt.getD ""
    qty := p.quantity
    tradableQty := p.quantityAvailableForTrading
    qtyInPies := p.quantityInPies
    instrumentCurrency := p.instrument.currency
    avgPricePaid := p.averagePricePaid
    currentPrice := p.currentPrice
    accountCurrency := summary.currency
    invested := p.Invested
    marketValue := p.CurrentValue
    unrealizedPnL := p.walletImpact.unrealizedProfitLoss
    fxImpact := p.walletImpact.fxImpact
    fxPair := mkFXPair summary p
    holdingsPct := Round pct 2
    holdingsBps := PctToBps pct }

/-- `sort.SliceStable(allocation, less i j ↔ mv i > mv j)`: the unique stable
non-increasing reordering by market value, realized by the stable
`List.mergeSort` with `le a b ↔ mv a ≥ mv b`. -/
def sortAllocation (rows : List AllocationRow) : List AllocationRow :=
  rows.mergeSort (fun a b => decide (b.marketValue ≤ a.marketValue))

/-- `sort.SliceStable(holdings, less i j ↔ mv i > mv j)`, as `sortAllocation`. -/
def sortHoldings (rows : List HoldingRow) : List HoldingRow :=
  rows.mergeSort (fun a b => decide (b.marketValue ≤ a.marketValue))

/-- The pure aggregation performed by `Service.GetPortfolio` after the two
fetches succeeded.  `reportDate` and `generatedAt` stand for the formatted
`time.Now()` values. -/
def getPortfolio (summary : AccountSummary) (positions : List Position)
    (period : PeriodRange) (includeRaw : Bool)
    (reportDate generatedAt : String) : Output :=
  let holdingsValue := SumPositionsValue positions
  let holdingsCost := SumPositionsCost positions
  let holdingsPnL := SumPositionsPnL positions
  let fx := SumPositionsFXImpact positions
  let pieCash := summary.cash.inPies
  let allocated := holdingsValue + pieCash
  let freeCash := summary.cash.availableToTrade + summary.cash.reservedForOrders
  let holdingsReturn := CalculateHoldingsReturn holdingsPnL holdingsCost
  let twrPct := holdingsReturn
  let holdingsFXImpact := if fx.2 then some fx.1 else none
  let holdingsPnLExclFX := if fx.2 then some (holdingsPnL - fx.1) else none
  let reconciliation := reconcile summary pieCash freeCash allocated
  let allocation := sortAllocation (positions.map (mkAllocationRow holdingsValue))
  let holdings := sortHoldings (positions.map (mkHoldingRow summary holdingsValue))
  { schemaVersion := SchemaVersion
    report := { reportDate := reportDate, generatedAt := generatedAt, period := period }
    summary :=
      { currency := summary.currency
        derived :=
          { holdingsValue := holdingsValue
            pieCash := pieCash
            allocated := allocated
            freeCash := freeCash
            accountTotal := summary.totalValue
            holdingsCost := holdingsCost
            holdingsPnL := holdingsPnL
            holdingsFXImpact := holdingsFXImpact
            holdingsPnLExclFX := holdingsPnLExclFX
            holdingsReturnPct := Round holdingsReturn 4
            holdingsReturnBps := PctToBps holdingsReturn
            twrPctEst := Round twrPct 4
            twrBpsEst := PctToBps twrPct
            twrMethod := "holdings-only-no-flows"
            twrDescription :=
              "Estimated TWR based on holdings only; excludes cash flows and pie allocations." }
        snapshot :=
          { apiInvestmentsValue := summary.investments.currentValue
            apiCashInPies := summary.cash.inPies
            apiCashAvailable := summary.cash.availableToTrade
            apiCashReserved := summary.cash.reservedForOrders
            apiRealizedPnL := summary.investments.realizedProfitLoss
            apiTotalCost := summary.investments.totalCost
            apiTotalValue := summary.totalValue }
        reconciliation := reconciliation }
    allocation := allocation
    holdings := holdings
    raw := if includeRaw then some { accountSummary := summary, positions := positions } else none }

/-! ## HTTP client retry policy
(internal/infrastructure/trading212/client.go, errors.go)

`doJSON` is modelled per request: the network is abstracted as the two
responses the server would give to the first and (potential) second attempt.
Durations are `ℤ` nanoseconds; `now` is the current time in nanoseconds.
The result carries the list of waits performed before retries, so "no retry"
is an empty wait list.  Context cancellation (the `ctx.Done()` arm of the
`select`) is not modelled: the timer arm is taken. -/

/-- One HTTP response as `doJSON` observes it: status code plus the parsed
positive-integer values of the `Retry-After` and `x-ratelimit-reset` headers
(`none` when absent or unparseable). -/
structure Response where
  statusCode : ℕ
  retryAfterHeader : Option ℤ
  rateLimitResetHeader : Option ℤ
  body : String
deriving Repr, DecidableEq

structure HTTPError where
  method : String
  url : String
  statusCode : ℕ
  body : String
  rateLimitResetUnix : ℤ
  retryAfterSeconds : ℤ
deriving Repr, DecidableEq

def nsPerSecond : ℤ := 1000000000

/-- Header capture in `doJSON` (client.go lines 146-156): a hint is recorded
only when it parses to a positive number. -/
def mkHTTPError (method url : String) (r : Response) : HTTPError :=
  { method := method
    url := url
    statusCode := r.statusCode
    body := r.body
    retryAfterSeconds :=
      match r.retryAfterHeader with
      | some n => if n > 0 then n else 0
      | none => 0
    rateLimitResetUnix :=
      match r.rateLimitResetHeader with
      | some n => if n > 0 then n else 0
      | none => 0 }

/-- `HTTPError.SuggestedRetryDelay` (errors.go lines 28-40): `Retry-After`
seconds first, `X-RateLimit-Reset` (as `time.Until(resetAt)`) as fallback,
`ok = false` when neither is set. -/
def SuggestedRetryDelay (e : HTTPError) (now : ℤ) : ℤ × Bool :=
  if e.retryAfterSeconds > 0 then (e.retryAfterSeconds * nsPerSecond, true)
  else if e.rateLimitResetUnix > 0 then (e.rateLimitResetUnix * nsPerSecond - now, true)
  else (0, false)

inductive ClientError where
  | httpErr (e : HTTPError)
  /-- The `"request retry loop fell through unexpectedly"` return
  (client.go line 209). -/
  | retryLoopFellThrough
deriving Repr, DecidableEq

inductive AttemptOutcome where
  | success
  | failure (e : ClientError)
  | waitRetry (d : ℤ)
deriving Repr, DecidableEq

/-- One iteration of the `for attempt := 0; attempt < 2` loop in `doJSON`
(client.go lines 129-206), with `isFirstAttempt ↔ attempt == 0`.  A 2xx
response is a success (JSON decoding is out of scope of the retry policy). -/
def attemptStep (method url : String) (now : ℤ) (resp : Response)
    (isFirstAttempt : Bool) : AttemptOutcome :=
  if resp.statusCode < 200 ∨ 300 ≤ resp.statusCode then
    let e := mkHTTPError method url resp
    if resp.statusCode = 429 ∧ isFirstAttempt = true then
      let dp := SuggestedRetryDelay e now
      if dp.2 then
        let d := if dp.1 < 0 then 0 else dp.1
        if d > 8 * nsPerSecond then AttemptOutcome.failure (.httpErr e)
        else AttemptOutcome.waitRetry d
      else AttemptOutcome.waitRetry (5 * nsPerSecond)
    else AttemptOutcome.failure (.httpErr e)
  else AttemptOutcome.success

/-- The whole retry loop of `doJSON`: at most two attempts; the returned list
holds the waits performed before a retry. -/
def doJSON (method url : String) (now : ℤ) (r0 r1 : Response) :
    Except ClientError Unit × List ℤ :=
  match attemptStep method url now r0 true with
  | .success => (.ok (), [])
  | .failure e => (.error e, [])
  | .waitRetry d =>
    match attemptStep method url now r1 false with
    | .success => (.ok (), [d])
    | .failure e => (.error e, [d])
    | .waitRetry _ => (.error .retryLoopFellThrough, [d])

/-- What the second (and last) attempt yields for response `r1`: a 2xx is a
success, anything else is the structured HTTP error, never another retry. -/
def secondAttemptResult (method url : String) (r1 : Response) :
    Except ClientError Unit :=
  if r1.statusCode < 200 ∨ 300 ≤ r1.statusCode
  then .error (.httpErr (mkHTTPError method url r1))
  else .ok ()

/-! ## Credential resolver (internal/infrastructure/secrets/secrets.go) -/

def AppName : String := "folio212"

/-- `Source`: where a secret was retrieved from.  The constructors stand for
the Go string constants `"environment"`, `"keyring"`, `"config_file"`,
`"none"`. -/
inductive Source where
  | environment
  | keyring
  | configFile
  | noneSource
deriving Repr, DecidableEq

/-- Result of a keyring operation: `notFound` models `keyring.ErrNotFound`,
`timeout` the `TimeoutError` produced when the 3-second timer fires first,
`other` any other backend error. -/
inductive KeyringError where
  | notFound
  | timeout
  | other (msg : String)
deriving Repr, DecidableEq

/-- `errors.Is(err, keyring.ErrNotFound)`. -/
def KeyringError.isNotFound : KeyringError → Bool
  | .notFound => true
  | _ => false

inductive FileError where
  | fileErr (msg : String)
deriving Repr, DecidableEq

/-- The error `Get` can return: the keyring error wrapped by
`fmt.Errorf("failed to get secret %q (keyring error: %w)", key, keyringErr)`. -/
inductive GetError where
  | wrappedKeyring (key : String) (e : KeyringError)
deriving Repr, DecidableEq

/-- The three backing stores as `Get` observes them in one invocation:
`env` is `os.Getenv` (empty string when unset), `keyring` the result pair of
`getFromKeyringWithTimeout`, `file` the result pair of `getFromFile` (a
missing key yields the empty string and no error, Go map zero value). -/
structure SecretsWorld where
  env : String → String
  keyring : String → String × Option KeyringError
  file : String → String × Option FileError

/-- Go `strings.ToUpper`, character-wise (the keys involved are ASCII). -/
def goToUpper (s : String) : String := String.mk (s.data.map Char.toUpper)

/-- Go `strings.ReplaceAll(s, "-", "_")`: the pattern is a single character,
so it is a character-wise map. -/
def goReplaceHyphens (s : String) : String :=
  String.mk (s.data.map fun c => if c = '-' then '_' else c)

/-- `toEnvVar` (secrets.go lines 261-265): upper-case the key with hyphens
replaced by underscores and prepend the upper-cased app name. -/
def toEnvVar (key : String) : String :=
  goToUpper AppName ++ "_" ++ goToUpper (goReplaceHyphens key)

/-- `Get` (secrets.go lines 52-79): environment first, then keyring, then
file fallback; if nothing is found, the keyring error is surfaced (wrapped)
unless it was a plain "not found". -/
def Get (w : SecretsWorld) (key : String) : String × Source × Option GetError :=
  let envValue := w.env (toEnvVar key)
  if envValue ≠ "" then (envValue, Source.environment, none)
  else
    let kres := w.keyring key
    if kres.2 = none ∧ kres.1 ≠ "" then (kres.1, Source.keyring, none)
    else
      let fres := w.file key
      if fres.2 = none ∧ fres.1 ≠ "" then (fres.1, Source.configFile, none)
      else
        match kres.2 with
        | some e =>
          if e.isNotFound then ("", Source.noneSource, none)
          else ("", Source.noneSource, some (.wrappedKeyring key e))
        | none => ("", Source.noneSource, none)

/-! ## Concrete sample inputs used by witnesses -/

def wResp429 : Response :=
  { statusCode := 429, retryAfterHeader := none, rateLimitResetHeader := none,
    body := "too many requests" }

def wResp200 : Response :=
  { statusCode := 200, retryAfterHeader := none, rateLimitResetHeader := none,
    body := "" }

def wEnvWorld : SecretsWorld :=
  { env := fun s => if s = "FOLIO212_T212_API_SECRET" then "env-secret" else ""
    keyring := fun _ => ("keyring-secret", none)
    file := fun _ => ("file-secret", none) }

def wHardErrWorld : SecretsWorld :=
  { env := fun _ => ""
    keyring := fun _ => ("", some (KeyringError.other "backend boom"))
    file := fun _ => ("", none) }

def wFileWorld : SecretsWorld :=
  { env := fun _ => ""
    keyring := fun _ => ("", some KeyringError.timeout)
    file := fun _ => ("file-secret", none) }

/-- Modelled from the spec: "FX pair label: use an explicit per-position pair
if set; else `<instrumentCurrency>/<accountCurrency>` if they differ and both
known; else `n/a`."  Written from the spec's words, to be compared with the
source's `ChooseFXPair`. -/
def specFXPairLabel (explicit instrumentCurrency accountCurrency : String) : String :=
  if explicit ≠ "" then explicit
  else if instrumentCurrency ≠ "" ∧ accountCurrency ≠ "" ∧
      instrumentCurrency ≠ accountCurrency
  then instrumentCurrency ++ "/" ++ accountCurrency
  else "n/a"

def wPos1 : Position :=
  { averagePricePaid := 0
    createdAt := none
    currentPrice := 0
    instrument := { currency := "USD", isin := "", name := "", ticker := "AAPL" }
    quantity := 0
    quantityAvailableForTrading := 0
    quantityInPies := 0
    walletImpact :=
      { currency := "", currentValue := 100, fxImpact := some 1, totalCost := 80,
        unrealizedProfitLoss := 20 } }

def wSum1 : AccountSummary :=
  { cash := { availableToTrade := 0, inPies := 0, reservedForOrders := 0 }
    currency := "EUR"
    id := 0
    investments :=
      { currentValue := 0, realizedProfitLoss := 0, totalCost := 0,
        unrealizedProfitLoss := 0 }
    totalValue := 0 }

def wPosA : Position :=
  { averagePricePaid := 0
    createdAt := none
    currentPrice := 0
    instrument := { currency := "", isin := "", name := "", ticker := "A" }
    quantity := 0
    quantityAvailableForTrading := 0
    quantityInPies := 0
    walletImpact :=
      { currency := "", currentValue := 5, fxImpact := none, totalCost := 4,
        unrealizedProfitLoss := 1 } }

def wPosB : Position :=
  { averagePricePaid := 0
    createdAt := none
    currentPrice := 0
    instrument := { currency := "", isin := "", name := "", ticker := "B" }
    quantity := 0
    quantityAvailableForTrading := 0
    quantityInPies := 0
    walletImpact :=
      { currency := "", currentValue := 5, fxImpact := none, totalCost := 3,
        unrealizedProfitLoss := 2 } }

def c8AAPL : Position :=
  { averagePricePaid := 0
    createdAt := none
    currentPrice := 0
    instrument := { currency := "", isin := "", name := "", ticker := "AAPL" }
    quantity := 0
    quantityAvailableForTrading := 0
    quantityInPies := 0
    walletImpact :=
      { currency := "", currentValue := 100, fxImpact := none, totalCost := 80,
        unrealizedProfitLoss := 20 } }

def c8MSFT : Position :=
  { averagePricePaid := 0
    createdAt := none
    currentPrice := 0
    instrument := { currency := "", isin := "", name := "", ticker := "MSFT" }
    quantity := 0
    quantityAvailableForTrading := 0
    quantityInPies := 0
    walletImpact :=
      { currency := "", currentValue := 50, fxImpact := none, totalCost := 60,
        unrealizedProfitLoss := -10 } }

def c8Summary : AccountSummary :=
  { cash := { availableToTrade := 0, inPies := 10, reservedForOrders := 0 }
    currency := ""
    id := 0
    investments :=
      { currentValue := 0, realizedProfitLoss := 0, totalCost := 0,
        unrealizedProfitLoss := 0 }
    totalValue := 0 }

def c8Out : Output := getPortfolio c8Summary [c8AAPL, c8MSFT] ⟨none, none⟩ false "" ""

/-! ## Helper lemmas -/

theorem sumPositionsFXImpact_go (ps : List Position) (a : ℚ) (b : Bool) :
    (ps.foldl
      (fun acc p =>
        match p.walletImpact.fxImpact with
        | none => (acc.1, false)
        | some v => (acc.1 + v, acc.2))
      (a, b))
    = (a + (ps.filterMap (fun p => p.walletImpact.fxImpact)).sum,
       b && ps.all (fun p => (p.walletImpact.fxImpact).isSome)) := by
  induction ps generalizing a b with
  | nil => simp
  | cons p ps ih =>
    cases h : p.walletImpact.fxImpact with
    | none => simp [h, ih]
    | some v => simp [h, ih, add_assoc]

theorem sumPositionsFXImpact_eq (ps : List Position) :
    SumPositionsFXImpact ps
      = ((ps.filterMap (fun p => p.walletImpact.fxImpact)).sum,
         ps.all (fun p => (p.walletImpact.fxImpact).isSome)) := by
  simpa [SumPositionsFXImpact] using sumPositionsFXImpact_go ps 0 true

theorem getPortfolio_holdingsFXImpact (summary : AccountSummary)
    (positions : List Position) (period : PeriodRange) (includeRaw : Bool)
    (reportDate generatedAt : String) :
    (getPortfolio summary positions period includeRaw reportDate
        generatedAt).summary.derived.holdingsFXImpact
      = (if (SumPositionsFXImpact positions).2
         then some (SumPositionsFXImpact positions).1 else none) := rfl

theorem getPortfolio_holdingsPnLExclFX (summary : AccountSummary)
    (positions : List Position) (period : PeriodRange) (includeRaw : Bool)
    (reportDate generatedAt : String) :
    (getPortfolio summary positions period includeRaw reportDate
        generatedAt).summary.derived.holdingsPnLExclFX
      = (if (SumPositionsFXImpact positions).2
         then some (SumPositionsPnL positions - (SumPositionsFXImpact positions).1)
         else none) := rfl

theorem getPortfolio_holdingsPnL (summary : AccountSummary)
    (positions : List Position) (period : PeriodRange) (includeRaw : Bool)
    (reportDate generatedAt : String) :
    (getPortfolio summary positions period includeRaw reportDate
        generatedAt).summary.derived.holdingsPnL = SumPositionsPnL positions := rfl

theorem getPortfolio_reconciliation (summary : AccountSummary)
    (positions : List Position) (period : PeriodRange) (includeRaw : Bool)
    (reportDate generatedAt : String) :
    (getPortfolio summary positions period includeRaw reportDate
        generatedAt).summary.reconciliation
      = reconcile summary summary.cash.inPies
          (summary.cash.availableToTrade + summary.cash.reservedForOrders)
          (SumPositionsValue positions + summary.cash.inPies) := rfl

/-! ## Claim theorems -/

/-- **C1**: for every row of the aggregator's output holdings list, the FX pair
label (resolved by `ChooseFXPair` from the row's per-position pair and the
instrument/account currencies, as done at render time) is the explicit
per-position pair when one is set, otherwise `instrumentCurrency/accountCurrency`
when both are non-empty and differ, otherwise `n/a`. -/
theorem holdingsRow_fx_pair_label (summary : AccountSummary)
    (positions : List Position) (period : PeriodRange) (includeRaw : Bool)
    (reportDate generatedAt : String) (row : HoldingRow)
    (hrow : row ∈ (getPortfolio summary positions period includeRaw reportDate
        generatedAt).holdings) :
    ChooseFXPair row.fxPair row.instrumentCurrency row.accountCurrency
      = specFXPairLabel row.fxPair row.instrumentCurrency row.accountCurrency := by
  clear hrow
  simp only [ChooseFXPair, specFXPairLabel]
  split_ifs with h1 h2 h3 <;> first | rfl | (exfalso; tauto)

/-- Witness for C1 at a concrete holdings row (USD instrument in a EUR account). -/
theorem holdingsRow_fx_pair_label_witness :
    ChooseFXPair (mkHoldingRow wSum1 (SumPositionsValue [wPos1]) wPos1).fxPair
        (mkHoldingRow wSum1 (SumPositionsValue [wPos1]) wPos1).instrumentCurrency
        (mkHoldingRow wSum1 (SumPositionsValue [wPos1]) wPos1).accountCurrency
      = specFXPairLabel
          (mkHoldingRow wSum1 (SumPositionsValue [wPos1]) wPos1).fxPair
          (mkHoldingRow wSum1 (SumPositionsValue [wPos1]) wPos1).instrumentCurrency
          (mkHoldingRow wSum1 (SumPositionsValue [wPos1]) wPos1).accountCurrency :=
  holdingsRow_fx_pair_label wSum1 [wPos1] ⟨none, none⟩ false "" ""
    (mkHoldingRow wSum1 (SumPositionsValue [wPos1]) wPos1)
    (by simp [getPortfolio, sortHoldings])

/-- **C2**: the FX-impact aggregate is all-or-nothing: if any position has a
null `fxImpact`, both `HoldingsFXImpact` and `HoldingsPnLExclFX` are omitted;
if every position has one, both are present, `HoldingsFXImpact` is the sum of
the per-position impacts and `HoldingsPnLExclFX = HoldingsPnL - that sum`. -/
theorem fx_impact_all_or_nothing (summary : AccountSummary)
    (positions : List Position) (period : PeriodRange) (includeRaw : Bool)
    (reportDate generatedAt : String) :
    ((∃ p ∈ positions, p.walletImpact.fxImpact = none) →
      (getPortfolio summary positions period includeRaw reportDate
          generatedAt).summary.derived.holdingsFXImpact = none ∧
      (getPortfolio summary positions period includeRaw reportDate
          generatedAt).summary.derived.holdingsPnLExclFX = none)
    ∧ ((∀ p ∈ positions, p.walletImpact.fxImpact ≠ none) →
      (getPortfolio summary positions period includeRaw reportDate
          generatedAt).summary.derived.holdingsFXImpact
        = some ((positions.filterMap (fun p => p.walletImpact.fxImpact)).sum) ∧
      (getPortfolio summary positions period includeRaw reportDate
          generatedAt).summary.derived.holdingsPnLExclFX
        = some ((getPortfolio summary positions period includeRaw reportDate
              generatedAt).summary.derived.holdingsPnL
            - (positions.filterMap (fun p => p.walletImpact.fxImpact)).sum)) := by
  rw [getPortfolio_holdingsFXImpact, getPortfolio_holdingsPnLExclFX,
    getPortfolio_holdingsPnL, sumPositionsFXImpact_eq]
  constructor
  · rintro ⟨p, hp, hnone⟩
    have : ¬ (positions.all (fun p => (p.walletImpact.fxImpact).isSome) = true) := by
      simp only [List.all_eq_true, not_forall]
      exact ⟨p, hp, by simp [hnone]⟩
    simp [this]
  · intro hall
    have : positions.all (fun p => (p.walletImpact.fxImpact).isSome) = true := by
      simp only [List.all_eq_true]
      intro p hp
      exact Option.isSome_iff_ne_none.mpr (hall p hp)
    simp [this]

/-- Witness for C2: with one position whose `fxImpact` is `some 1`, both
aggregate FX fields are present with the claimed values. -/
theorem fx_impact_all_or_nothing_witness :
    (getPortfolio wSum1 [wPos1] ⟨none, none⟩ false "" "").summary.derived.holdingsFXImpact
      = some (([wPos1].filterMap (fun p => p.walletImpact.fxImpact)).sum) ∧
    (getPortfolio wSum1 [wPos1] ⟨none, none⟩ false "" "").summary.derived.holdingsPnLExclFX
      = some ((getPortfolio wSum1 [wPos1] ⟨none, none⟩ false "" "").summary.derived.holdingsPnL
          - ([wPos1].filterMap (fun p => p.walletImpact.fxImpact)).sum) :=
  (fx_impact_all_or_nothing wSum1 [wPos1] ⟨none, none⟩ false "" "").2
    (by intro p hp; simp only [List.mem_singleton] at hp; subst hp; simp [wPos1])

/-- **C3**: the reconciliation warnings contain an "account total" warning iff
`|AccountTotal - (FreeCash + Allocated)| > 0.01`, with
`FreeCash = availableToTrade + reservedForOrders` and
`Allocated = HoldingsValue + PieCash`; the violation yields a warning in the
output value, never an error (the aggregation is total). -/
theorem account_total_warning_iff (summary : AccountSummary)
    (positions : List Position) (period : PeriodRange) (includeRaw : Bool)
    (reportDate generatedAt : String) :
    (∃ d c, Warning.accountTotal d c
        ∈ (getPortfolio summary positions period includeRaw reportDate
            generatedAt).summary.reconciliation.warnings)
      ↔ Abs (summary.totalValue
            - ((summary.cash.availableToTrade + summary.cash.reservedForOrders)
              + (SumPositionsValue positions + summary.cash.inPies))) > 1/100 := by
  rw [getPortfolio_reconciliation]
  simp only [reconcile, List.mem_append]
  split_ifs with h1 h2 <;> simp_all

/-- **C9**: for the empty position list the FX-impact sum reports success
vacuously, so both aggregate FX fields are present and equal to `0`. -/
theorem fx_fields_present_for_empty (summary : AccountSummary)
    (period : PeriodRange) (includeRaw : Bool) (reportDate generatedAt : String) :
    (getPortfolio summary [] period includeRaw reportDate
        generatedAt).summary.derived.holdingsFXImpact = some 0 ∧
    (getPortfolio summary [] period includeRaw reportDate
        generatedAt).summary.derived.holdingsPnLExclFX = some 0 := by
  constructor <;>
    simp [getPortfolio_holdingsFXImpact, getPortfolio_holdingsPnLExclFX,
      SumPositionsFXImpact, SumPositionsPnL]

theorem mvLE_trans {α : Type} (mv : α → ℚ) (a b c : α) :
    decide (mv b ≤ mv a) = true → decide (mv c ≤ mv b) = true →
    decide (mv c ≤ mv a) = true := by
  simp only [decide_eq_true_eq]
  exact fun h1 h2 => le_trans h2 h1

theorem mvLE_total {α : Type} (mv : α → ℚ) (a b : α) :
    (decide (mv b ≤ mv a) || decide (mv a ≤ mv b)) = true := by
  simp only [Bool.or_eq_true, decide_eq_true_eq]
  exact le_total _ _

/-- **C7**: both output lists are stable-sorted in descending order of market
value: every element's market value is ≥ any later element's, and any two rows
with equal market value keep the relative order they had in the original fetch
(the unsorted row lists are the images of the fetched position list in fetch
order). -/
theorem allocation_holdings_sorted_stable (summary : AccountSummary)
    (positions : List Position) (period : PeriodRange) (includeRaw : Bool)
    (reportDate generatedAt : String) :
    ((getPortfolio summary positions period includeRaw reportDate
        generatedAt).allocation.Pairwise
          (fun a b => b.marketValue ≤ a.marketValue)
     ∧ (getPortfolio summary positions period includeRaw reportDate
        generatedAt).holdings.Pairwise
          (fun a b => b.marketValue ≤ a.marketValue))
    ∧ ((∀ a b : AllocationRow, a.marketValue = b.marketValue →
          List.Sublist [a, b] (positions.map (mkAllocationRow (SumPositionsValue positions))) →
          List.Sublist [a, b] (getPortfolio summary positions period includeRaw reportDate
              generatedAt).allocation)
      ∧ (∀ a b : HoldingRow, a.marketValue = b.marketValue →
          List.Sublist [a, b] (positions.map (mkHoldingRow summary (SumPositionsValue positions))) →
          List.Sublist [a, b] (getPortfolio summary positions period includeRaw reportDate
              generatedAt).holdings)) := by
  have halloc : (getPortfolio summary positions period includeRaw reportDate
      generatedAt).allocation
      = (positions.map (mkAllocationRow (SumPositionsValue positions))).mergeSort
          (fun a b => decide (b.marketValue ≤ a.marketValue)) := rfl
  have hhold : (getPortfolio summary positions period includeRaw reportDate
      generatedAt).holdings
      = (positions.map (mkHoldingRow summary (SumPositionsValue positions))).mergeSort
          (fun a b => decide (b.marketValue ≤ a.marketValue)) := rfl
  refine ⟨⟨?_, ?_⟩, ?_, ?_⟩
  · rw [halloc]
    exact (List.sorted_mergeSort (mvLE_trans AllocationRow.marketValue)
      (mvLE_total AllocationRow.marketValue) _).imp (fun h => of_decide_eq_true h)
  · rw [hhold]
    exact (List.sorted_mergeSort (mvLE_trans HoldingRow.marketValue)
      (mvLE_total HoldingRow.marketValue) _).imp (fun h => of_decide_eq_true h)
  · intro a b hmv hsub
    rw [halloc]
    exact List.pair_sublist_mergeSort (mvLE_trans AllocationRow.marketValue)
      (mvLE_total AllocationRow.marketValue) (by simp [hmv]) hsub
  · intro a b hmv hsub
    rw [hhold]
    exact List.pair_sublist_mergeSort (mvLE_trans HoldingRow.marketValue)
      (mvLE_total HoldingRow.marketValue) (by simp [hmv]) hsub

/-- Witness for C7: two positions with equal market value keep their fetch
order in the sorted allocation list. -/
theorem allocation_holdings_sorted_stable_witness :
    List.Sublist
      [mkAllocationRow (SumPositionsValue [wPosA, wPosB]) wPosA,
       mkAllocationRow (SumPositionsValue [wPosA, wPosB]) wPosB]
      (getPortfolio wSum1 [wPosA, wPosB] ⟨none, none⟩ false "" "").allocation :=
  (allocation_holdings_sorted_stable wSum1 [wPosA, wPosB] ⟨none, none⟩
      false "" "").2.1
    (mkAllocationRow (SumPositionsValue [wPosA, wPosB]) wPosA)
    (mkAllocationRow (SumPositionsValue [wPosA, wPosB]) wPosB)
    rfl (List.Sublist.refl _)

/-- **C8**: on the two-position example (AAPL value 100, cost 80, PnL 20;
MSFT value 50, cost 60, PnL -10; pieCash 10) the aggregator produces HoldingsValue 150, Allocated 160,
HoldingsCost 140, HoldingsPnL 10, HoldingsReturnPct 7.1429, an AAPL allocation
row with 66.67 % and 6667 bps, sorted before MSFT. -/
theorem end_to_end_example :
    c8Out.summary.derived.holdingsValue = 150 ∧
    c8Out.summary.derived.allocated = 160 ∧
    c8Out.summary.derived.holdingsCost = 140 ∧
    c8Out.summary.derived.holdingsPnL = 10 ∧
    c8Out.summary.derived.holdingsReturnPct = 71429 / 10000 ∧
    c8Out.allocation.map AllocationRow.ticker = ["AAPL", "MSFT"] ∧
    c8Out.allocation.head? = some
      { ticker := "AAPL", marketValue := 100, holdingsPct := 6667 / 100,
        holdingsBps := 6667 } := by
  have hv : SumPositionsValue [c8AAPL, c8MSFT] = 150 := by
    norm_num [SumPositionsValue, c8AAPL, c8MSFT, Position.CurrentValue]
  have hcost : SumPositionsCost [c8AAPL, c8MSFT] = 140 := by
    norm_num [SumPositionsCost, c8AAPL, c8MSFT, Position.Invested]
  have hpnl : SumPositionsPnL [c8AAPL, c8MSFT] = 10 := by
    norm_num [SumPositionsPnL, c8AAPL, c8MSFT]
  have hA : mkAllocationRow (SumPositionsValue [c8AAPL, c8MSFT]) c8AAPL
      = { ticker := "AAPL", marketValue := 100, holdingsPct := 6667 / 100,
          holdingsBps := 6667 } := by
    rw [mkAllocationRow, hv]
    norm_num [c8AAPL, Position.CurrentValue, CalculateAllocationPercentage,
      Round, mathRound, PctToBps, AllocationRow.mk.injEq]
  have hM : mkAllocationRow (SumPositionsValue [c8AAPL, c8MSFT]) c8MSFT
      = { ticker := "MSFT", marketValue := 50, holdingsPct := 3333 / 100,
          holdingsBps := 3333 } := by
    rw [mkAllocationRow, hv]
    norm_num [c8MSFT, Position.CurrentValue, CalculateAllocationPercentage,
      Round, mathRound, PctToBps, AllocationRow.mk.injEq]
  have hsort : c8Out.allocation
      = [mkAllocationRow (SumPositionsValue [c8AAPL, c8MSFT]) c8AAPL,
         mkAllocationRow (SumPositionsValue [c8AAPL, c8MSFT]) c8MSFT] := by
    have h0 : c8Out.allocation
        = ([mkAllocationRow (SumPositionsValue [c8AAPL, c8MSFT]) c8AAPL,
            mkAllocationRow (SumPositionsValue [c8AAPL, c8MSFT]) c8MSFT]).mergeSort
            (fun a b => decide (b.marketValue ≤ a.marketValue)) := rfl
    rw [h0]
    refine List.mergeSort_of_sorted ?_
    rw [hA, hM]
    norm_num [List.pairwise_cons]
  have e1 : c8Out.summary.derived.holdingsValue = SumPositionsValue [c8AAPL, c8MSFT] := rfl
  have e2 : c8Out.summary.derived.allocated
      = SumPositionsValue [c8AAPL, c8MSFT] + c8Summary.cash.inPies := rfl
  have e3 : c8Out.summary.derived.holdingsCost = SumPositionsCost [c8AAPL, c8MSFT] := rfl
  have e4 : c8Out.summary.derived.holdingsPnL = SumPositionsPnL [c8AAPL, c8MSFT] := rfl
  have e5 : c8Out.summary.derived.holdingsReturnPct
      = Round (CalculateHoldingsReturn (SumPositionsPnL [c8AAPL, c8MSFT])
          (SumPositionsCost [c8AAPL, c8MSFT])) 4 := rfl
  refine ⟨?_, ?_, ?_, ?_, ?_, ?_, ?_⟩
  · rw [e1, hv]
  · rw [e2, hv]; norm_num [c8Summary]
  · rw [e3, hcost]
  · rw [e4, hpnl]
  · rw [e5, hpnl, hcost]
    norm_num [CalculateHoldingsReturn, Round, mathRound]
  · rw [hsort, hA, hM]
    rfl
  · rw [hsort, hA]
    rfl

theorem attemptStep_not_first (method url : String) (now : ℤ) (r : Response) :
    attemptStep method url now r false
      = if r.statusCode < 200 ∨ 300 ≤ r.statusCode
        then AttemptOutcome.failure (.httpErr (mkHTTPError method url r))
        else AttemptOutcome.success := by
  simp [attemptStep]

theorem attemptStep_waitRetry_imp (method url : String) (now : ℤ) (r : Response)
    (b : Bool) (d : ℤ) :
    attemptStep method url now r b = AttemptOutcome.waitRetry d →
    r.statusCode = 429 := by
  simp only [attemptStep]
  split_ifs with h1 h2 h3 h4 <;> intro h <;> simp_all

/-- **C4**: only a 429 response triggers a retry and at most one retry is ever
performed; a 429 without a rate-limit hint is retried once after a fixed
5-second wait; a 429 whose hint-derived delay exceeds the 8-second ceiling is
returned as the structured HTTP error with no retry; every other non-2xx
status is returned immediately with no retry. -/
theorem retry_policy (method url : String) (now : ℤ) (r0 r1 : Response) :
    ((r0.statusCode < 200 ∨ 300 ≤ r0.statusCode) → r0.statusCode ≠ 429 →
      doJSON method url now r0 r1
        = (.error (.httpErr (mkHTTPError method url r0)), []))
    ∧ (r0.statusCode = 429 →
      (SuggestedRetryDelay (mkHTTPError method url r0) now).2 = false →
      doJSON method url now r0 r1
        = (secondAttemptResult method url r1, [5 * nsPerSecond]))
    ∧ (r0.statusCode = 429 →
      (SuggestedRetryDelay (mkHTTPError method url r0) now).2 = true →
      (SuggestedRetryDelay (mkHTTPError method url r0) now).1 > 8 * nsPerSecond →
      doJSON method url now r0 r1
        = (.error (.httpErr (mkHTTPError method url r0)), []))
    ∧ (doJSON method url now r0 r1).2.length ≤ 1
    ∧ ((doJSON method url now r0 r1).2 ≠ [] → r0.statusCode = 429) := by
  refine ⟨?_, ?_, ?_, ?_, ?_⟩
  · intro hno h429
    have h : attemptStep method url now r0 true
        = AttemptOutcome.failure (.httpErr (mkHTTPError method url r0)) := by
      simp only [attemptStep]
      rw [if_pos hno, if_neg (by simp [h429])]
    simp [doJSON, h]
  · intro h429 hhint
    have hno : r0.statusCode < 200 ∨ 300 ≤ r0.statusCode := by
      right; rw [h429]; norm_num
    have h : attemptStep method url now r0 true
        = AttemptOutcome.waitRetry (5 * nsPerSecond) := by
      simp only [attemptStep]
      rw [if_pos hno, if_pos ⟨h429, trivial⟩, if_neg (by simp [hhint])]
    by_cases h2 : r1.statusCode < 200 ∨ 300 ≤ r1.statusCode
    · simp [doJSON, h, attemptStep_not_first, if_pos h2, secondAttemptResult]
    · simp [doJSON, h, attemptStep_not_first, if_neg h2, secondAttemptResult]
  · intro h429 hhint hbig
    have hno : r0.statusCode < 200 ∨ 300 ≤ r0.statusCode := by
      right; rw [h429]; norm_num
    have hpos : (0:ℤ) < 8 * nsPerSecond := by norm_num [nsPerSecond]
    have hnn : ¬((SuggestedRetryDelay (mkHTTPError method url r0) now).1 < 0) := by
      linarith
    have h : attemptStep method url now r0 true
        = AttemptOutcome.failure (.httpErr (mkHTTPError method url r0)) := by
      simp only [attemptStep]
      rw [if_pos hno, if_pos ⟨h429, trivial⟩, if_pos hhint, if_neg hnn, if_pos hbig]
    simp [doJSON, h]
  · rcases h0 : attemptStep method url now r0 true with _ | e | d
    · simp [doJSON, h0]
    · simp [doJSON, h0]
    · rcases h1 : attemptStep method url now r1 false with _ | e | d1 <;>
        simp [doJSON, h0, h1]
  · intro hne
    rcases h0 : attemptStep method url now r0 true with _ | e | d
    · simp [doJSON, h0] at hne
    · simp [doJSON, h0] at hne
    · exact attemptStep_waitRetry_imp method url now r0 true d h0

/-- Witness for C4: a 429 with no rate-limit hint is retried once after
exactly 5 seconds, and the second response decides the outcome. -/
theorem retry_policy_witness :
    doJSON "GET" "https://live.trading212.com/api/v0/equity/account/summary" 0
        wResp429 wResp200
      = (secondAttemptResult "GET"
            "https://live.trading212.com/api/v0/equity/account/summary" wResp200,
         [5 * nsPerSecond]) :=
  (retry_policy "GET" "https://live.trading212.com/api/v0/equity/account/summary"
      0 wResp429 wResp200).2.1 rfl rfl

/-- **C5**: a non-empty environment variable named by the app-prefixed
upper-snake-case transform of the key wins immediately, with source
`environment`, regardless of what the keyring or the file fallback hold
(the example transform of the spec is also checked). -/
theorem env_var_wins (w : SecretsWorld) (key : String)
    (henv : w.env (toEnvVar key) ≠ "") :
    Get w key = (w.env (toEnvVar key), Source.environment, none)
    ∧ toEnvVar "t212-api-secret" = "FOLIO212_T212_API_SECRET" := by
  constructor
  · simp only [Get]
    rw [if_pos henv]
  · rfl

/-- Witness for C5: with `FOLIO212_T212_API_SECRET` set and the same key also
present in the keyring, the environment value wins. -/
theorem env_var_wins_witness :
    Get wEnvWorld "t212-api-secret"
      = (wEnvWorld.env (toEnvVar "t212-api-secret"), Source.environment, none)
    ∧ toEnvVar "t212-api-secret" = "FOLIO212_T212_API_SECRET" :=
  env_var_wins wEnvWorld "t212-api-secret" (by decide)

/-- **C6**: when environment, keyring and file all yield no value, `Get`
returns the empty string with source none; the error is `nil` when the
keyring failure (if any) was a plain "not found", and the wrapped keyring
error otherwise. -/
theorem nothing_found_behaviour (w : SecretsWorld) (key : String)
    (henv : w.env (toEnvVar key) = "")
    (hkv : (w.keyring key).2 ≠ none ∨ (w.keyring key).1 = "")
    (hfv : (w.file key).2 ≠ none ∨ (w.file key).1 = "") :
    ((w.keyring key).2 = none → Get w key = ("", Source.noneSource, none))
    ∧ (∀ e, (w.keyring key).2 = some e →
        (e.isNotFound = true → Get w key = ("", Source.noneSource, none))
        ∧ (e.isNotFound = false →
          Get w key
            = ("", Source.noneSource, some (GetError.wrappedKeyring key e)))) := by
  have h1 : ¬((w.keyring key).2 = none ∧ (w.keyring key).1 ≠ "") := by
    rcases hkv with h | h
    · exact fun hc => h hc.1
    · exact fun hc => hc.2 h
  have h2 : ¬((w.file key).2 = none ∧ (w.file key).1 ≠ "") := by
    rcases hfv with h | h
    · exact fun hc => h hc.1
    · exact fun hc => hc.2 h
  constructor
  · intro hk
    simp only [Get]
    rw [if_neg (by simp [henv]), if_neg h1, if_neg h2, hk]
  · intro e hk
    constructor <;> intro hnf <;>
      (simp only [Get]
       rw [if_neg (by simp [henv]), if_neg h1, if_neg h2, hk]
       simp [hnf])

/-- Witness for C6: a hard keyring error (not "not found") with nothing found
anywhere is returned wrapped. -/
theorem nothing_found_behaviour_witness :
    Get wHardErrWorld "t212-api-secret"
      = ("", Source.noneSource,
         some (GetError.wrappedKeyring "t212-api-secret"
            (KeyringError.other "backend boom"))) :=
  ((nothing_found_behaviour wHardErrWorld "t212-api-secret" rfl
      (Or.inr rfl) (Or.inr rfl)).2
    (KeyringError.other "backend boom") rfl).2 rfl

/-- **C10**: with the environment unset and the keyring failing hard, a
non-empty file-fallback value is returned with source file and a `nil`
error — the keyring error is suppressed. -/
theorem file_fallback_suppresses_keyring_error (w : SecretsWorld) (key : String)
    (e : KeyringError)
    (henv : w.env (toEnvVar key) = "")
    (hk : (w.keyring key).2 = some e)
    (hhard : e.isNotFound = false)
    (hfile : (w.file key).2 = none)
    (hfv : (w.file key).1 ≠ "") :
    Get w key = ((w.file key).1, Source.configFile, none) := by
  have h1 : ¬((w.keyring key).2 = none ∧ (w.keyring key).1 ≠ "") := by
    intro hc
    rw [hk] at hc
    simp at hc
  simp only [Get]
  rw [if_neg (by simp [henv]), if_neg h1, if_pos ⟨hfile, hfv⟩]

/-- Witness for C10: keyring timeout plus a file-fallback hit returns the
file value with a `nil` error. -/
theorem file_fallback_suppresses_keyring_error_witness :
    Get wFileWorld "t212-api-secret"
      = ((wFileWorld.file "t212-api-secret").1, Source.configFile, none) :=
  file_fallback_suppresses_keyring_error wFileWorld "t212-api-secret"
    KeyringError.timeout rfl rfl rfl rfl (by simp [wFileWorld])

end Folio212
